import Mathlib

/-!
Shallow embedding of the Conversion Widget in src/components/file-converter.tsx.

The component holds seven pieces of React state (file, converting, loading,
progress, type, format, preview); each event handler is embedded as a pure
function from a ConverterState (plus an environment describing the outcomes of
the asynchronous host APIs: FileReader, Image decode, canvas.toBlob,
MediaRecorder construction) to a new ConverterState together with the list of
externally visible effects it performs (toasts, object-URL creation and
revocation, download triggers, console logging).

A promise whose executor registers callbacks settles only when one of those
callbacks calls resolve or reject.  An exception thrown inside an
asynchronously invoked callback (such as the onloadedmetadata handler in
convertVideo) is not caught by the promise machinery, so the promise never
settles; this is embedded by returning Option results, where none means the
promise stays pending forever, and by a settled flag on the outcome of
handleConvert, false meaning the awaiting continuation (including the finally
block) never runs.
-/

/-- The ConversionType union from the source: "image" | "video". -/
inductive ConversionType where
  | image
  | video
deriving DecidableEq

/-- A browser File as the component observes it: a display name and the
declared MIME type (the File.type property). The binary content is opaque. -/
structure SourceFile where
  name : String
  type : String
deriving DecidableEq

/-- IMAGE_FORMATS from the source. -/
def IMAGE_FORMATS : List String := ["png", "jpeg", "webp", "gif", "bmp", "avif"]

/-- VIDEO_FORMATS from the source. -/
def VIDEO_FORMATS : List String := ["mp4", "webm", "ogg", "mov"]

/-- IMAGE_MIME_TYPES from the source. -/
def IMAGE_MIME_TYPES : List String :=
  ["image/jpeg", "image/png", "image/webp", "image/gif", "image/bmp", "image/avif"]

/-- VIDEO_MIME_TYPES from the source. -/
def VIDEO_MIME_TYPES : List String :=
  ["video/mp4", "video/webm", "video/ogg", "video/quicktime"]

/-- The seven useState fields of the FileConverter component. -/
structure ConverterState where
  file : Option SourceFile
  converting : Bool
  loading : Bool
  progress : Nat
  type : ConversionType
  format : String
  preview : String
deriving DecidableEq

/-- The useState initial values: null, false, false, 0, "image", "", "". -/
def initialState : ConverterState :=
  { file := none, converting := false, loading := false, progress := 0,
    type := ConversionType.image, format := "", preview := "" }

/-- Externally visible effects a handler performs, in order. -/
inductive Effect where
  | toast (title description : String) (destructive : Bool)
  | createObjectURL (url : String)
  | revokeObjectURL (url : String)
  | download (href filename : String)
  | consoleError (message : String)
deriving DecidableEq

/-- resetState: setFile(null); setProgress(0); setPreview(""); setFormat("").
It performs no other state updates and no effects (in particular it revokes
no object URLs). -/
def resetState (s : ConverterState) : ConverterState × List Effect :=
  ({ s with file := none, progress := 0, preview := "", format := "" }, [])

/-- detectFileType: classifies file.type against the two MIME allow-lists,
setting the type state and returning the classification ("image" / "video" /
null, embedded as Option). -/
def detectFileType (s : ConverterState) (f : SourceFile) :
    Option ConversionType × ConverterState :=
  if f.type ∈ IMAGE_MIME_TYPES then
    (some ConversionType.image, { s with type := ConversionType.image })
  else if f.type ∈ VIDEO_MIME_TYPES then
    (some ConversionType.video, { s with type := ConversionType.video })
  else
    (none, s)

/-- Outcomes of the host APIs used by createPreview.
imageRead = some d means the FileReader load event fires with data URL d;
imageRead = none means the read fails, and since createPreview registers no
onerror handler nothing further ever runs on that path.
objectUrl is the URL returned by URL.createObjectURL on the video path.
syncThrow = true means a synchronous exception is raised inside the try block
(the only failure the catch clause can actually observe). -/
structure PreviewEnv where
  imageRead : Option String
  objectUrl : String
  syncThrow : Bool
deriving DecidableEq

/-- The first action of createPreview: setLoading(true). -/
def previewStart (s : ConverterState) : ConverterState :=
  { s with loading := true }

/-- createPreview: setLoading(true), then for an image registers a FileReader
load callback that sets the preview to the data URL and clears loading (no
onerror handler is registered, so a failed read leaves loading true and the
preview untouched); for a video creates an object URL, sets it as the preview
and clears loading.  A synchronous throw is caught: it is logged and loading
is cleared, without setting a preview. -/
def createPreview (s : ConverterState) (fileType : ConversionType)
    (env : PreviewEnv) : ConverterState × List Effect :=
  let s1 := previewStart s
  if env.syncThrow then
    ({ s1 with loading := false }, [Effect.consoleError "Preview creation failed:"])
  else
    match fileType with
    | ConversionType.image =>
        match env.imageRead with
        | some d => ({ s1 with preview := d, loading := false }, [])
        | none => (s1, [])
    | ConversionType.video =>
        ({ s1 with preview := env.objectUrl, loading := false },
         [Effect.createObjectURL env.objectUrl])

/-- handleFileChange: classifies the file; on an unknown MIME type it toasts
"Invalid file type" and returns without touching any other state; otherwise
it sets the file, resets progress to 0 and awaits createPreview.  Note that
it never writes the format field. -/
def handleFileChange (s : ConverterState) (f : SourceFile) (env : PreviewEnv) :
    ConverterState × List Effect :=
  match detectFileType s f with
  | (none, s1) =>
      (s1, [Effect.toast "Invalid file type" "Please upload an image or video file." true])
  | (some fileType, s1) =>
      createPreview { s1 with file := some f, progress := 0 } fileType env

/-- Outcomes of the host APIs used by convertImage.
readOk: the FileReader load event fires (onerror rejects otherwise).
decodeOk: the Image element decodes (img.onerror rejects otherwise).
toDataUrlResult: the string canvas.toDataURL returns; toDataURL always
returns a string, falling back to PNG when the requested type is unsupported.
blob: whether canvas.toBlob passes a non-null blob on the gif/avif path.
blobUrl: the object URL created for that blob. -/
structure ImageEnv where
  readOk : Bool
  decodeOk : Bool
  toDataUrlResult : String
  blob : Bool
  blobUrl : String
deriving DecidableEq

/-- convertImage: rejects on a reader error or an image decode error; for gif
and avif it goes through canvas.toBlob and rejects when the blob is null,
otherwise resolving with a fresh object URL (recorded as an effect); for
every other format it resolves with the canvas.toDataURL string. -/
def convertImage (format : String) (env : ImageEnv) :
    Except String String × List Effect :=
  if env.readOk = false then (Except.error "FileReader error", [])
  else if env.decodeOk = false then (Except.error "image decode error", [])
  else if format = "gif" ∨ format = "avif" then
    if env.blob then (Except.ok env.blobUrl, [Effect.createObjectURL env.blobUrl])
    else (Except.error "Failed to convert image", [])
  else (Except.ok env.toDataUrlResult, [])

/-- Outcomes of the host APIs used by convertVideo.
readOk: the FileReader load event fires (onerror rejects otherwise).
videoOk: video metadata loads (video.onerror rejects otherwise).
recorderOk: the MediaRecorder constructor succeeds; when it throws, the
exception escapes the onloadedmetadata callback uncaught, so neither resolve
nor reject ever runs and the promise stays pending forever.
frames: how many times drawFrame runs before currentTime reaches duration. -/
structure VideoEnv where
  readOk : Bool
  videoOk : Bool
  recorderOk : Bool
  frames : Nat
deriving DecidableEq

/-- The actualFormat local: "mov" is encoded as "mp4", every other format is
passed through. -/
def actualVideoFormat (format : String) : String :=
  if format = "mov" then "mp4" else format

/-- The MIME type given to the assembled Blob: "video/quicktime" for "mov",
otherwise "video/" plus the requested format. -/
def videoBlobType (format : String) : String :=
  if format = "mov" then "video/quicktime" else "video/" ++ format

/-- What a successful convertVideo run produces: the MIME type the
MediaRecorder was constructed with and the declared type of the assembled
Blob. -/
structure VideoArtifact where
  recorderMime : String
  blobType : String
deriving DecidableEq

/-- The per-frame progress update: setProgress(prev => Math.min(prev + 1, 100)). -/
def progressStep (p : Nat) : Nat := min (p + 1) 100

/-- convertVideo: rejects on a reader error or a video element error; when
the MediaRecorder constructor throws the promise never settles (none);
otherwise it resolves with the artifact description.  The recorder MIME is
"video/" ++ actualVideoFormat format (the spread of the options object is
overridden by the second mimeType entry), the blob type is videoBlobType. -/
def convertVideo (format : String) (env : VideoEnv) :
    Option (Except String VideoArtifact) :=
  if env.readOk = false then some (Except.error "FileReader error")
  else if env.videoOk = false then some (Except.error "video decode error")
  else if env.recorderOk = false then none
  else some (Except.ok { recorderMime := "video/" ++ actualVideoFormat format,
                         blobType := videoBlobType format })

/-- Environment for one handleConvert run: the outcomes of whichever
conversion path is taken plus the object URL created for the video artifact. -/
structure ConvEnv where
  image : ImageEnv
  video : VideoEnv
  videoBlobUrl : String
deriving DecidableEq

/-- The first two updates of a conversion attempt once the guard passes:
setConverting(true); setProgress(0). -/
def convertStart (s : ConverterState) : ConverterState :=
  { s with converting := true, progress := 0 }

/-- The result of one handleConvert invocation: the final component state,
the effects performed, and whether the async function actually ran to
completion (settled = false means the awaited promise never settled, so the
catch and finally blocks never ran). -/
structure ConvOutcome where
  state : ConverterState
  effects : List Effect
  settled : Bool
deriving DecidableEq

/-- The success toast of handleConvert. -/
def toastComplete : Effect :=
  Effect.toast "Conversion complete" "Your file has been converted successfully!" false

/-- The failure toast of handleConvert. -/
def toastFailed : Effect :=
  Effect.toast "Conversion failed" "There was an error converting your file." true

/-- handleConvert: returns immediately when no file is held or the format is
empty.  Otherwise sets converting and resets progress, then dispatches on the
type state: the image path downloads the convertImage result as
converted.format, revoking the object URL first only for gif/avif; the video
path creates an object URL for the blob, downloads it and revokes the URL.
On success progress is set to 100 and the success toast fires; a rejection is
logged and the failure toast fires; the finally block clears converting in
every settled run.  When convertVideo never settles, nothing after the await
runs: converting stays true, no toast fires and no artifact is offered. -/
def handleConvert (s : ConverterState) (env : ConvEnv) : ConvOutcome :=
  if s.file = none ∨ s.format = "" then
    { state := s, effects := [], settled := true }
  else
    let s1 := convertStart s
    match s.type with
    | ConversionType.image =>
        match convertImage s.format env.image with
        | (Except.ok url, eff) =>
            { state := { s1 with progress := 100, converting := false },
              effects := eff ++ [Effect.download url ("converted." ++ s.format)]
                ++ (if s.format = "gif" ∨ s.format = "avif"
                    then [Effect.revokeObjectURL url] else [])
                ++ [toastComplete],
              settled := true }
        | (Except.error _, eff) =>
            { state := { s1 with converting := false },
              effects := eff ++ [Effect.consoleError "Conversion failed:", toastFailed],
              settled := true }
    | ConversionType.video =>
        match convertVideo s.format env.video with
        | none =>
            { state := s1, effects := [], settled := false }
        | some (Except.error _) =>
            { state := { s1 with converting := false },
              effects := [Effect.consoleError "Conversion failed:", toastFailed],
              settled := true }
        | some (Except.ok _) =>
            let s2 := { s1 with progress := Nat.iterate progressStep env.video.frames s1.progress }
            { state := { s2 with progress := 100, converting := false },
              effects := [Effect.createObjectURL env.videoBlobUrl,
                          Effect.download env.videoBlobUrl ("converted." ++ s.format),
                          Effect.revokeObjectURL env.videoBlobUrl,
                          toastComplete],
              settled := true }

/-! Concrete fixtures used by counterexamples and witnesses. -/

/-- A PNG image file. -/
def pngFile : SourceFile := { name := "photo.png", type := "image/png" }

/-- A JPEG image file. -/
def jpegFile : SourceFile := { name := "photo.jpg", type := "image/jpeg" }

/-- A QuickTime video file. -/
def movFile : SourceFile := { name := "clip.mov", type := "video/quicktime" }

/-- A PDF file, outside both allow-lists. -/
def pdfFile : SourceFile := { name := "doc.pdf", type := "application/pdf" }

/-- A preview environment where every host call succeeds. -/
def previewEnvOk : PreviewEnv :=
  { imageRead := some "data:image/png;base64,QUJD", objectUrl := "blob:preview-1",
    syncThrow := false }

/-- An image conversion environment where every host call succeeds. -/
def imageEnvOk : ImageEnv :=
  { readOk := true, decodeOk := true, toDataUrlResult := "data:image/webp;base64,REVG",
    blob := true, blobUrl := "blob:image-artifact" }

/-- A video conversion environment where every host call succeeds. -/
def videoEnvOk : VideoEnv :=
  { readOk := true, videoOk := true, recorderOk := true, frames := 7 }

/-- A conversion environment where every host call succeeds. -/
def convEnvOk : ConvEnv :=
  { image := imageEnvOk, video := videoEnvOk, videoBlobUrl := "blob:video-artifact" }

/-- A session holding an accepted image with a chosen format, ready to convert. -/
def readyImageState : ConverterState :=
  { initialState with
    file := some pngFile
    format := "webp"
    preview := "data:image/png;base64,QUJD" }

/-- A session holding an accepted video with a chosen format, ready to convert. -/
def readyVideoState : ConverterState :=
  { initialState with
    file := some movFile
    type := ConversionType.video
    format := "ogg"
    preview := "blob:preview-0"
    progress := 42 }

/-- A preview environment in which the asynchronous image file read fails:
the load event never fires, and no onerror handler was registered. -/
def imageReadFailEnv : PreviewEnv :=
  { imageRead := none, objectUrl := "blob:unused", syncThrow := false }

/-! Helper lemmas shared by several claims. -/

/-- The two MIME allow-lists are disjoint, so the else-if ordering in
detectFileType cannot shadow a video MIME type. -/
theorem mime_lists_disjoint : ∀ a ∈ VIDEO_MIME_TYPES, a ∉ IMAGE_MIME_TYPES := by
  decide

/-- createPreview only writes the loading and preview fields: file, progress,
format, type and converting pass through untouched. -/
theorem createPreview_keeps (s : ConverterState) (ft : ConversionType)
    (env : PreviewEnv) :
    (createPreview s ft env).1.file = s.file ∧
    (createPreview s ft env).1.progress = s.progress ∧
    (createPreview s ft env).1.format = s.format ∧
    (createPreview s ft env).1.type = s.type ∧
    (createPreview s ft env).1.converting = s.converting := by
  rcases env with ⟨ir, ou, st⟩
  cases st <;> cases ft <;> cases ir <;>
    simp [createPreview, previewStart]

/-- Iterating the per-frame progress update i times from p is min (p + i) 100
whenever p starts within bounds. -/
theorem progress_iterate (i p : Nat) (hp : p ≤ 100) :
    Nat.iterate progressStep i p = min (p + i) 100 := by
  induction i generalizing p with
  | zero => simp [Nat.iterate]; omega
  | succ n ih =>
      show Nat.iterate progressStep n (progressStep p) = _
      rw [ih (progressStep p) (by simp [progressStep])]
      simp [progressStep]
      omega

/-- Claim C1 counterexample: resetting a session that holds a video file with
a live preview object URL leaves the MediaKind selection at video rather than
returning it to its initial value, and revokes no reference URL, so the claim
as stated is false. -/
theorem C1_counterexample :
    ¬ ((resetState readyVideoState).1.type = initialState.type ∧
       Effect.revokeObjectURL readyVideoState.preview ∈ (resetState readyVideoState).2) := by
  decide

/-- Claim C1 (amended): resetState returns the SourceFile, ConversionProgress,
PreviewHandle and TargetFormat to their initial empty values (no file,
progress 0, empty preview, empty format) but leaves the MediaKind selection,
the converting flag and the loading flag unchanged, and performs no effects:
in particular it revokes no reference URLs. -/
theorem C1_resetState (s : ConverterState) :
    (resetState s).1 =
      { s with file := none, progress := 0, preview := "", format := "" } ∧
    (resetState s).2 = [] :=
  ⟨rfl, rfl⟩

/-- Claim C2 counterexample: acquiring a valid JPEG while format "webp" is
already selected leaves the format at "webp" instead of clearing it, so the
claim as stated is false. -/
theorem C2_counterexample :
    ¬ ((handleFileChange readyImageState jpegFile previewEnvOk).1.format = "") := by
  decide

/-- Claim C2 (amended): for every candidate file whose MIME type is in one of
the two allow-lists, handleFileChange stores the SourceFile and resets
ConversionProgress to 0, but it does not clear a previously selected
TargetFormat: the format field is left unchanged. -/
theorem C2_handleFileChange (s : ConverterState) (f : SourceFile)
    (env : PreviewEnv)
    (h : f.type ∈ IMAGE_MIME_TYPES ∨ f.type ∈ VIDEO_MIME_TYPES) :
    (handleFileChange s f env).1.file = some f ∧
    (handleFileChange s f env).1.progress = 0 ∧
    (handleFileChange s f env).1.format = s.format := by
  have key : ∀ (s1 : ConverterState) (ft : ConversionType),
      (createPreview { s1 with file := some f, progress := 0 } ft env).1.file = some f ∧
      (createPreview { s1 with file := some f, progress := 0 } ft env).1.progress = 0 ∧
      (createPreview { s1 with file := some f, progress := 0 } ft env).1.format = s1.format := by
    intro s1 ft
    obtain ⟨h1, h2, h3, -, -⟩ :=
      createPreview_keeps { s1 with file := some f, progress := 0 } ft env
    exact ⟨h1, h2, h3⟩
  rcases h with h | h
  · have hd : handleFileChange s f env =
        createPreview
          { { s with type := ConversionType.image } with file := some f, progress := 0 }
          ConversionType.image env := by
      simp [handleFileChange, detectFileType, h]
    rw [hd]
    exact key { s with type := ConversionType.image } ConversionType.image
  · have hni : f.type ∉ IMAGE_MIME_TYPES := mime_lists_disjoint f.type h
    have hd : handleFileChange s f env =
        createPreview
          { { s with type := ConversionType.video } with file := some f, progress := 0 }
          ConversionType.video env := by
      simp [handleFileChange, detectFileType, h, hni]
    rw [hd]
    exact key { s with type := ConversionType.video } ConversionType.video

/-- Claim C2 witness: the amended claim at a concrete acquisition of a JPEG
into a session that already has format "webp" selected. -/
theorem C2_witness :
    (handleFileChange readyImageState jpegFile previewEnvOk).1.file = some jpegFile ∧
    (handleFileChange readyImageState jpegFile previewEnvOk).1.progress = 0 ∧
    (handleFileChange readyImageState jpegFile previewEnvOk).1.format = readyImageState.format :=
  C2_handleFileChange readyImageState jpegFile previewEnvOk (Or.inl (by decide))

/-- Claim C4 counterexample: for an image whose asynchronous file read fails,
createPreview never clears the loading flag, so the claim that loading is set
back to false on every failure is false. -/
theorem C4_counterexample :
    ¬ ((createPreview initialState ConversionType.image imageReadFailEnv).1.loading = false) := by
  decide

/-- Claim C4 (amended): createPreview sets the loading flag to true before the
work starts; it sets loading back to false on completion and on a synchronous
failure, and a failure never sets a PreviewHandle; but when the asynchronous
image file read fails, no registered handler ever runs again, so the loading
flag remains true (and the preview stays unset). -/
theorem C4_createPreview (s : ConverterState) (ft : ConversionType)
    (env : PreviewEnv) :
    (previewStart s).loading = true ∧
    (env.syncThrow = true →
      (createPreview s ft env).1.loading = false ∧
      (createPreview s ft env).1.preview = s.preview ∧
      (createPreview s ft env).2 = [Effect.consoleError "Preview creation failed:"]) ∧
    (env.syncThrow = false → ft = ConversionType.image → env.imageRead = none →
      (createPreview s ft env).1.loading = true ∧
      (createPreview s ft env).1.preview = s.preview) ∧
    (env.syncThrow = false → (ft = ConversionType.video ∨ env.imageRead ≠ none) →
      (createPreview s ft env).1.loading = false) := by
  rcases env with ⟨ir, ou, st⟩
  refine ⟨rfl, ?_, ?_, ?_⟩ <;>
    cases st <;> cases ft <;> cases ir <;>
      simp [createPreview, previewStart]

/-- Claim C4 witness: the amended claim at a concrete image acquisition whose
file read fails: loading was raised and stays true, the preview stays unset. -/
theorem C4_witness :
    (previewStart initialState).loading = true ∧
    (createPreview initialState ConversionType.image imageReadFailEnv).1.loading = true ∧
    (createPreview initialState ConversionType.image imageReadFailEnv).1.preview = initialState.preview := by
  refine ⟨(C4_createPreview initialState ConversionType.image imageReadFailEnv).1, ?_, ?_⟩
  · exact ((C4_createPreview initialState ConversionType.image imageReadFailEnv).2.2.1
      rfl rfl rfl).1
  · exact ((C4_createPreview initialState ConversionType.image imageReadFailEnv).2.2.1
      rfl rfl rfl).2

/-- Claim C7: when no file is held or the TargetFormat is empty, handleConvert
returns immediately as a no-op: the state is unchanged, no effect (and in
particular no notification) is emitted, and the run settles. -/
theorem C7_noop (s : ConverterState) (env : ConvEnv)
    (h : s.file = none ∨ s.format = "") :
    handleConvert s env = { state := s, effects := [], settled := true } := by
  unfold handleConvert
  rw [if_pos h]

/-- Claim C7 witness: the no-op at the initial state, which holds no file. -/
theorem C7_witness :
    handleConvert initialState convEnvOk =
      { state := initialState, effects := [], settled := true } :=
  C7_noop initialState convEnvOk (Or.inl rfl)

/-- Claim C8: acquisition classifies a candidate by its declared MIME type:
a type in the image allow-list sets MediaKind to image, one in the video
allow-list sets MediaKind to video, and any other type makes acquisition fail
with an Invalid file type notification while changing no session state. -/
theorem C8_classification (s : ConverterState) (f : SourceFile)
    (env : PreviewEnv) :
    (f.type ∈ IMAGE_MIME_TYPES →
      (handleFileChange s f env).1.type = ConversionType.image) ∧
    (f.type ∈ VIDEO_MIME_TYPES →
      (handleFileChange s f env).1.type = ConversionType.video) ∧
    (f.type ∉ IMAGE_MIME_TYPES → f.type ∉ VIDEO_MIME_TYPES →
      handleFileChange s f env =
        (s, [Effect.toast "Invalid file type" "Please upload an image or video file." true])) := by
  refine ⟨?_, ?_, ?_⟩
  · intro h
    have hd : handleFileChange s f env =
        createPreview
          { { s with type := ConversionType.image } with file := some f, progress := 0 }
          ConversionType.image env := by
      simp [handleFileChange, detectFileType, h]
    rw [hd]
    exact (createPreview_keeps _ _ _).2.2.2.1
  · intro h
    have hni : f.type ∉ IMAGE_MIME_TYPES := mime_lists_disjoint f.type h
    have hd : handleFileChange s f env =
        createPreview
          { { s with type := ConversionType.video } with file := some f, progress := 0 }
          ConversionType.video env := by
      simp [handleFileChange, detectFileType, h, hni]
    rw [hd]
    exact (createPreview_keeps _ _ _).2.2.2.1
  · intro h1 h2
    simp [handleFileChange, detectFileType, h1, h2]

/-- Claim C8 witness: the three classification outcomes at concrete files: a
PNG is classified image, a QuickTime video is classified video, and a PDF is
rejected with the Invalid file type toast and an unchanged state. -/
theorem C8_witness :
    (handleFileChange initialState pngFile previewEnvOk).1.type = ConversionType.image ∧
    (handleFileChange initialState movFile previewEnvOk).1.type = ConversionType.video ∧
    handleFileChange initialState pdfFile previewEnvOk =
      (initialState, [Effect.toast "Invalid file type" "Please upload an image or video file." true]) :=
  ⟨(C8_classification initialState pngFile previewEnvOk).1 (by decide),
   (C8_classification initialState movFile previewEnvOk).2.1 (by decide),
   (C8_classification initialState pdfFile previewEnvOk).2.2 (by decide) (by decide)⟩

/-- Claim C5: when every host call succeeds, a video conversion to mov
constructs the recorder with the mp4 container and tags the artifact blob
video/quicktime, while every other TargetFormat f yields an artifact tagged
video/f (recorded under the same container). -/
theorem C5_movRelabel (env : VideoEnv) (f : String)
    (hr : env.readOk = true) (hv : env.videoOk = true)
    (hm : env.recorderOk = true) :
    convertVideo "mov" env =
      some (Except.ok { recorderMime := "video/mp4", blobType := "video/quicktime" }) ∧
    (f ≠ "mov" →
      convertVideo f env =
        some (Except.ok { recorderMime := "video/" ++ f, blobType := "video/" ++ f })) := by
  constructor
  · simp [convertVideo, hr, hv, hm, actualVideoFormat, videoBlobType]
  · intro hf
    simp [convertVideo, hr, hv, hm, actualVideoFormat, videoBlobType, hf]

/-- Claim C5 witness: the mov relabeling and the plain tagging at the
concrete successful environment, for formats mov and webm. -/
theorem C5_witness :
    convertVideo "mov" videoEnvOk =
      some (Except.ok { recorderMime := "video/mp4", blobType := "video/quicktime" }) ∧
    convertVideo "webm" videoEnvOk =
      some (Except.ok { recorderMime := "video/webm", blobType := "video/webm" }) := by
  constructor
  · exact (C5_movRelabel videoEnvOk "webm" rfl rfl rfl).1
  · simpa using (C5_movRelabel videoEnvOk "webm" rfl rfl rfl).2 (by decide)

/-- Claim C6: every conversion attempt begins by resetting ConversionProgress
to 0 (convertStart), and the per-frame updates of a video conversion, each
min (p + 1) 100, start at 0, never decrease and never exceed 100. -/
theorem C6_progress (s : ConverterState) (i j : Nat) (hij : i ≤ j) :
    (convertStart s).progress = 0 ∧
    Nat.iterate progressStep 0 ((convertStart s).progress) = 0 ∧
    Nat.iterate progressStep i ((convertStart s).progress) ≤
      Nat.iterate progressStep j ((convertStart s).progress) ∧
    Nat.iterate progressStep i ((convertStart s).progress) ≤ 100 := by
  have h0 : (convertStart s).progress = 0 := rfl
  rw [h0]
  refine ⟨rfl, rfl, ?_, ?_⟩
  · rw [progress_iterate i 0 (by omega), progress_iterate j 0 (by omega)]
    omega
  · rw [progress_iterate i 0 (by omega)]
    omega

/-- Claim C6 witness: the progress invariant at a concrete conversion start
and the concrete frame indices 3 and 5. -/
theorem C6_witness :
    (convertStart readyVideoState).progress = 0 ∧
    Nat.iterate progressStep 0 ((convertStart readyVideoState).progress) = 0 ∧
    Nat.iterate progressStep 3 ((convertStart readyVideoState).progress) ≤
      Nat.iterate progressStep 5 ((convertStart readyVideoState).progress) ∧
    Nat.iterate progressStep 3 ((convertStart readyVideoState).progress) ≤ 100 :=
  C6_progress readyVideoState 3 5 (by decide)

/-- On any image-path failure (reader error, decode error, or a null blob on
the gif/avif path) convertImage rejects and performs no effects. -/
theorem convertImage_fail (format : String) (env : ImageEnv)
    (h : env.readOk = false ∨ env.decodeOk = false ∨
      ((format = "gif" ∨ format = "avif") ∧ env.blob = false)) :
    ∃ e, convertImage format env = (Except.error e, []) := by
  unfold convertImage
  by_cases hr : env.readOk = false
  · exact ⟨_, by rw [if_pos hr]⟩
  · by_cases hd : env.decodeOk = false
    · exact ⟨_, by rw [if_neg hr, if_pos hd]⟩
    · rcases h with h | h | ⟨hg, hb⟩
      · exact absurd h hr
      · exact absurd h hd
      · refine ⟨"Failed to convert image", ?_⟩
        rw [if_neg hr, if_neg hd, if_pos hg, hb]
        simp

/-- On a settled video-path failure (reader error or video element error)
convertVideo rejects. -/
theorem convertVideo_fail (format : String) (env : VideoEnv)
    (h : env.readOk = false ∨ env.videoOk = false) :
    ∃ e, convertVideo format env = some (Except.error e) := by
  unfold convertVideo
  by_cases hr : env.readOk = false
  · exact ⟨_, by rw [if_pos hr]⟩
  · rcases h with h | h
    · exact absurd h hr
    · exact ⟨_, by rw [if_neg hr, if_pos h]⟩

/-- When the reader and the video element succeed but the MediaRecorder
constructor throws, convertVideo never settles. -/
theorem convertVideo_hang (format : String) (env : VideoEnv)
    (hr : env.readOk = true) (hv : env.videoOk = true)
    (hm : env.recorderOk = false) :
    convertVideo format env = none := by
  simp [convertVideo, hr, hv, hm]

/-- A conversion environment in which the MediaRecorder constructor throws
during the video path. -/
def recorderFailEnv : ConvEnv :=
  { image := imageEnvOk,
    video := { readOk := true, videoOk := true, recorderOk := false, frames := 0 },
    videoBlobUrl := "blob:unused" }

/-- A conversion environment in which the image file read fails. -/
def imageReadFailConvEnv : ConvEnv :=
  { image := { imageEnvOk with readOk := false }, video := videoEnvOk,
    videoBlobUrl := "blob:video-artifact" }

/-- Claim C3 counterexample: when the MediaRecorder constructor throws during
a video conversion, handleConvert neither clears the converting flag nor
emits the failure notification (the promise never settles), so the claim that
every failure surfaces a notification and returns control to an interactive
state is false. -/
theorem C3_counterexample :
    ¬ ((handleConvert readyVideoState recorderFailEnv).state.converting = false ∧
       toastFailed ∈ (handleConvert readyVideoState recorderFailEnv).effects) := by
  decide

/-- Claim C3 (amended): settled conversion failures (source read error, image
decode error, null blob on the gif/avif encode, video element error) all
resolve to the single generic failure notification, offer no download and
clear the converting flag; but when the MediaRecorder constructor throws, the
conversion promise never settles: the converting flag stays set, no
notification is emitted and nothing is offered. -/
theorem C3_failures (s : ConverterState) (env : ConvEnv)
    (hf : s.file ≠ none) (hfmt : s.format ≠ "") :
    (s.type = ConversionType.image →
      (env.image.readOk = false ∨ env.image.decodeOk = false ∨
        ((s.format = "gif" ∨ s.format = "avif") ∧ env.image.blob = false)) →
      (handleConvert s env).settled = true ∧
      (handleConvert s env).state.converting = false ∧
      toastFailed ∈ (handleConvert s env).effects ∧
      (∀ u n, Effect.download u n ∉ (handleConvert s env).effects)) ∧
    (s.type = ConversionType.video →
      (env.video.readOk = false ∨ env.video.videoOk = false) →
      (handleConvert s env).settled = true ∧
      (handleConvert s env).state.converting = false ∧
      toastFailed ∈ (handleConvert s env).effects ∧
      (∀ u n, Effect.download u n ∉ (handleConvert s env).effects)) ∧
    (s.type = ConversionType.video → env.video.readOk = true →
      env.video.videoOk = true → env.video.recorderOk = false →
      (handleConvert s env).settled = false ∧
      (handleConvert s env).state.converting = true ∧
      (handleConvert s env).effects = []) := by
  have hguard : ¬ (s.file = none ∨ s.format = "") := not_or.mpr ⟨hf, hfmt⟩
  refine ⟨?_, ?_, ?_⟩
  · intro hty hfail
    obtain ⟨e, hci⟩ := convertImage_fail s.format env.image hfail
    unfold handleConvert
    rw [if_neg hguard, hty, hci]
    refine ⟨rfl, rfl, ?_, ?_⟩
    · simp
    · intro u n
      simp [toastFailed]
  · intro hty hfail
    obtain ⟨e, hcv⟩ := convertVideo_fail s.format env.video hfail
    unfold handleConvert
    rw [if_neg hguard, hty, hcv]
    refine ⟨rfl, rfl, ?_, ?_⟩
    · simp
    · intro u n
      simp [toastFailed]
  · intro hty h1 h2 h3
    have hcv := convertVideo_hang s.format env.video h1 h2 h3
    unfold handleConvert
    rw [if_neg hguard, hty, hcv]
    exact ⟨rfl, rfl, rfl⟩

/-- Claim C3 witness: the amended claim at a concrete image conversion whose
file read fails: it settles, clears converting and toasts the failure. -/
theorem C3_witness :
    (handleConvert readyImageState imageReadFailConvEnv).settled = true ∧
    (handleConvert readyImageState imageReadFailConvEnv).state.converting = false ∧
    toastFailed ∈ (handleConvert readyImageState imageReadFailConvEnv).effects := by
  have h := (C3_failures readyImageState imageReadFailConvEnv (by decide) (by decide)).1
    rfl (Or.inl rfl)
  exact ⟨h.1, h.2.1, h.2.2.1⟩

/-- Claim C9: for an image conversion to any TargetFormat other than gif and
avif, once the read and the decode succeed the encode step has no failure
branch: convertImage always resolves with the canvas.toDataURL string, and
handleConvert downloads that result under the requested extension
converted.format. -/
theorem C9_image_total (s : ConverterState) (env : ConvEnv)
    (hf : s.file ≠ none) (hfmt : s.format ≠ "")
    (hty : s.type = ConversionType.image)
    (hr : env.image.readOk = true) (hd : env.image.decodeOk = true)
    (hg : s.format ≠ "gif") (ha : s.format ≠ "avif") :
    convertImage s.format env.image = (Except.ok env.image.toDataUrlResult, []) ∧
    Effect.download env.image.toDataUrlResult ("converted." ++ s.format) ∈
      (handleConvert s env).effects ∧
    (handleConvert s env).settled = true := by
  have hci : convertImage s.format env.image =
      (Except.ok env.image.toDataUrlResult, []) := by
    simp [convertImage, hr, hd, hg, ha]
  have hguard : ¬ (s.file = none ∨ s.format = "") := not_or.mpr ⟨hf, hfmt⟩
  refine ⟨hci, ?_, ?_⟩
  · unfold handleConvert
    rw [if_neg hguard, hty, hci]
    simp [hg, ha]
  · unfold handleConvert
    rw [if_neg hguard, hty, hci]

/-- Claim C9 witness: the no-failure image path at a concrete webp conversion
whose decode succeeds. -/
theorem C9_witness :
    convertImage readyImageState.format convEnvOk.image =
      (Except.ok convEnvOk.image.toDataUrlResult, []) ∧
    Effect.download convEnvOk.image.toDataUrlResult
        ("converted." ++ readyImageState.format) ∈
      (handleConvert readyImageState convEnvOk).effects := by
  have h := C9_image_total readyImageState convEnvOk (by decide) (by decide) rfl rfl rfl
    (by decide) (by decide)
  exact ⟨h.1, h.2.1⟩

/-- Claim C10: after every successful conversion, image as well as video,
ConversionProgress is set to 100 and the converting flag is cleared, so the
session returns to the ready state with progress still 100. -/
theorem C10_success (s : ConverterState) (env : ConvEnv)
    (hf : s.file ≠ none) (hfmt : s.format ≠ "")
    (hok : (s.type = ConversionType.image ∧
              ∃ u eff, convertImage s.format env.image = (Except.ok u, eff)) ∨
           (s.type = ConversionType.video ∧
              ∃ a, convertVideo s.format env.video = some (Except.ok a))) :
    (handleConvert s env).state.progress = 100 ∧
    (handleConvert s env).state.converting = false ∧
    (handleConvert s env).settled = true := by
  have hguard : ¬ (s.file = none ∨ s.format = "") := not_or.mpr ⟨hf, hfmt⟩
  rcases hok with ⟨hty, u, eff, hci⟩ | ⟨hty, a, hcv⟩
  · unfold handleConvert
    rw [if_neg hguard, hty, hci]
    exact ⟨rfl, rfl, rfl⟩
  · unfold handleConvert
    rw [if_neg hguard, hty, hcv]
    exact ⟨rfl, rfl, rfl⟩

/-- Claim C10 witness: progress 100 in the ready state after a concrete
successful video conversion. -/
theorem C10_witness :
    (handleConvert readyVideoState convEnvOk).state.progress = 100 ∧
    (handleConvert readyVideoState convEnvOk).state.converting = false := by
  have h := C10_success readyVideoState convEnvOk (by decide) (by decide)
    (Or.inr ⟨rfl, ⟨_, rfl⟩⟩)
  exact ⟨h.1, h.2.1⟩
